import Mathlib

set_option maxRecDepth 100000

/-!
Shallow embedding of `chdman_helper.py` (a batch wrapper around the external
`chdman` tool) and proofs about its compress / decompress / info operations.

The filesystem, the external tool's return codes and its captured stdout are
modelled as an abstract `World`; each operation is embedded as a function
producing the list of observable effects (prints, directory creations,
process spawns, file deletions) together with an optional raised Python
exception.  String helpers (`strip`, `lower`, `split`, ...) re-implement the
Python string methods used by the script.
-/

/-! ## Python string primitives -/

/-- Python `str.strip()`: remove leading and trailing whitespace. -/
def pyStrip (s : String) : String :=
  String.mk (((s.toList.dropWhile Char.isWhitespace).reverse.dropWhile Char.isWhitespace).reverse)

/-- Python `str.lower()` (ASCII). -/
def pyLower (s : String) : String := String.mk (s.toList.map Char.toLower)

/-- Python `str.upper()` (ASCII). -/
def pyUpper (s : String) : String := String.mk (s.toList.map Char.toUpper)

/-- Does the second list start with the first one? -/
def beginsWith : List Char → List Char → Bool
  | [], _ => true
  | _ :: _, [] => false
  | p :: ps, c :: cs => p == c && beginsWith ps cs

/-- Python `s.startswith(pre)`. -/
def pyStartsWith (s pre : String) : Bool := beginsWith pre.toList s.toList

/-- Substring search on character lists. -/
def hasSub : List Char → List Char → Bool
  | [], ps => beginsWith ps []
  | c :: cs, ps => beginsWith ps (c :: cs) || hasSub cs ps

/-- Python `pat in s` (substring containment). -/
def strContains (s pat : String) : Bool := hasSub s.toList pat.toList

/-- Python `str.split(c)` for a one-character separator: split at every
occurrence, keeping empty pieces. -/
def pySplitChar (c : Char) : List Char → List (List Char)
  | [] => [[]]
  | x :: xs =>
    if x == c then [] :: pySplitChar c xs
    else
      match pySplitChar c xs with
      | y :: ys => (x :: y) :: ys
      | [] => [[x]]

/-- String wrapper for `pySplitChar`. -/
def pySplitCharStr (c : Char) (s : String) : List String :=
  (pySplitChar c s.toList).map String.mk

/-- Strip a literal character-list from the front, returning the remainder. -/
def stripSub : List Char → List Char → Option (List Char)
  | [], cs => some cs
  | _ :: _, [] => none
  | p :: ps, c :: cs => if p == c then stripSub ps cs else none

/-- Python `str.split(sep)` for a multi-character separator, with explicit
fuel (any fuel larger than the input length is exact, since every step
consumes at least one character for a nonempty separator). -/
def pySplitFuel (sep : List Char) : Nat → List Char → List (List Char)
  | 0, cs => [cs]
  | fuel + 1, cs =>
    match cs with
    | [] => [[]]
    | x :: xs =>
      match stripSub sep cs with
      | some rest => [] :: pySplitFuel sep fuel rest
      | none =>
        match pySplitFuel sep fuel xs with
        | y :: ys => (x :: y) :: ys
        | [] => [[x]]

/-- Python `str.split(sep)` for a nonempty separator string. -/
def pySplit (sep : String) (s : String) : List String :=
  (pySplitFuel sep.toList (s.toList.length + 1) s.toList).map String.mk

/-- Python whitespace split `str.split()`: tokens, empties discarded. -/
def wsTokensAux : List Char → List Char → List (List Char)
  | cur, [] => if cur.isEmpty then [] else [cur.reverse]
  | cur, c :: cs =>
    if c.isWhitespace then
      if cur.isEmpty then wsTokensAux [] cs else cur.reverse :: wsTokensAux [] cs
    else wsTokensAux (c :: cur) cs

/-- Python `str.split()` (no separator argument). -/
def pySplitWs (s : String) : List String := (wsTokensAux [] s.toList).map String.mk

/-- The single-quote character used in the tag pattern of the info output. -/
def sqc : Char := Char.ofNat 39

/-- The double-quote character used in cue-sheet FILE directives. -/
def dqc : Char := Char.ofNat 34

/-- One-character string holding a single quote. -/
def squo : String := String.mk [sqc]

/-- One-character string holding a double quote. -/
def dquo : String := String.mk [dqc]

/-! ## Paths (the slice of `pathlib.Path` the script uses) -/

/-- Split a file name into `(stem, suffix)` following `pathlib`: the suffix is
the part from the last dot on, provided that dot is neither the first nor the
last character of the name. -/
def pyNameSplit (name : String) : String × String :=
  let cs := name.toList
  match cs.reverse.findIdx? (fun c => c == Char.ofNat 46) with
  | none => (name, "")
  | some j =>
    let i := cs.length - 1 - j
    if 0 < i ∧ i < cs.length - 1 then (String.mk (cs.take i), String.mk (cs.drop i))
    else (name, "")

/-- A filesystem path: the names of the ancestor directories plus the final
component. -/
structure PyPath where
  dir : List String
  name : String
deriving DecidableEq, BEq, Repr

/-- Python `Path.suffix`. -/
def PyPath.suffix (p : PyPath) : String := (pyNameSplit p.name).2

/-- Python `Path.stem`. -/
def PyPath.stem (p : PyPath) : String := (pyNameSplit p.name).1

/-- Python `Path.__truediv__`: `p / n`. -/
def PyPath.child (p : PyPath) (n : String) : PyPath := ⟨p.dir ++ [p.name], n⟩

/-- Python `Path.with_suffix`. -/
def PyPath.with_suffix (p : PyPath) (ext : String) : PyPath :=
  ⟨p.dir, (pyNameSplit p.name).1 ++ ext⟩

/-- Python `Path.parent`. -/
def PyPath.parent (p : PyPath) : PyPath :=
  ⟨p.dir.dropLast, p.dir.getLast?.getD "."⟩

/-- Render a path as the string `str(path)` used when printing commands. -/
def PyPath.render (p : PyPath) : String := String.intercalate "/" (p.dir ++ [p.name])

/-- The script's ubiquitous `path.suffix.strip().lower()`. -/
def extLC (p : PyPath) : String := pyLower (pyStrip p.suffix)

/-! ## Module constants of `chdman_helper.py` -/

/-- Source line 12: `CHDMAN_COMPRESS_FORMATS = {'auto', 'cd', 'dvd', 'ld', 'raw'}`
(used only in the `--format` help text). -/
def CHDMAN_COMPRESS_FORMATS : List String := ["auto", "cd", "dvd", "ld", "raw"]

/-- Source line 13: `DISC_IMAGE_EXTS = {'.cue', '.gdi', '.iso'}`. -/
def DISC_IMAGE_EXTS : List String := [".cue", ".gdi", ".iso"]

/-- Source line 14: `FORMAT_TO_EXT = {'cd':'.cue', 'dvd':'.iso', 'ld':'.avi', 'raw':'.raw'}`. -/
def FORMAT_TO_EXT : List (String × String) :=
  [("cd", ".cue"), ("dvd", ".iso"), ("ld", ".avi"), ("raw", ".raw")]

/-- Source line 15: `TAG_TO_FORMAT = {'CHT2':'cd', 'DVD':'dvd'}`. -/
def TAG_TO_FORMAT : List (String × String) := [("CHT2", "cd"), ("DVD", "dvd")]

/-! ## World, effects and exceptions -/

/-- The ambient world: filesystem observations, directory enumeration, and
the external tool's behaviour (return code per command, stdout per command). -/
structure World where
  isFile : PyPath → Bool
  isDir : PyPath → Bool
  st_size : PyPath → Nat
  readLines : PyPath → List String
  rglob : PyPath → List PyPath
  runRC : List String → Int
  stdoutOf : List String → List String

/-- Observable effects of a run, in order. -/
inductive Ev where
  | print (s : String)
  | mkdirp (p : PyPath)
  | spawn (cmd : List String)
  | spawnCapture (cmd : List String)
  | unlink (p : PyPath)
deriving DecidableEq, Repr

/-- Python exceptions the script can raise. -/
inductive PyErr where
  | valueError (msg : String)
  | nameError (n : String)
  | indexError
  | keyError
  | recursionError
deriving DecidableEq, Repr

deriving instance DecidableEq for Except

/-- Result of a modelled call: effect trace plus optional raised exception. -/
abbrev Res := List Ev × Option PyErr

/-- The print events of a trace. -/
def printsOf (evs : List Ev) : List String :=
  evs.filterMap fun e => match e with | Ev.print s => some s | _ => none

/-- The plain (uncaptured) spawned commands of a trace. -/
def spawnCmds (evs : List Ev) : List (List String) :=
  evs.filterMap fun e => match e with | Ev.spawn c => some c | _ => none

/-- The captured-output spawned commands of a trace. -/
def spawnCaptureCmds (evs : List Ev) : List (List String) :=
  evs.filterMap fun e => match e with | Ev.spawnCapture c => some c | _ => none

/-- The deleted paths of a trace. -/
def unlinksOf (evs : List Ev) : List PyPath :=
  evs.filterMap fun e => match e with | Ev.unlink p => some p | _ => none

/-- The created directories of a trace. -/
def mkdirsOf (evs : List Ev) : List PyPath :=
  evs.filterMap fun e => match e with | Ev.mkdirp p => some p | _ => none

/-- Is an event a print? -/
def Ev.isPrint : Ev → Bool
  | Ev.print _ => true
  | _ => false

/-- Is an event a print or a captured spawn? -/
def Ev.isPrintOrCapture : Ev → Bool
  | Ev.print _ => true
  | Ev.spawnCapture _ => true
  | _ => false

/-! ## Name resolution for the buggy error message

Lines 72 and 139 of the source read
`raise ValueError("Output file exists: %s" % args.output)` inside
`run_compress` / `run_decompress`, where `args` is bound only inside
`parse_args` and `main`.  Python evaluates the message expression before
raising, so the name `args` is looked up in the local then the module scope. -/

/-- The names bound at module level in `chdman_helper.py`. -/
def moduleGlobals : List String :=
  ["Path", "run", "argparse", "CHDMAN_COMPRESS_FORMATS", "DISC_IMAGE_EXTS",
   "FORMAT_TO_EXT", "TAG_TO_FORMAT", "DEFAULT_CHDMAN_PATH", "tmp",
   "parse_args", "run_compress", "run_decompress", "run_info", "main",
   "__doc__", "__name__", "__file__"]

/-- The local names of `run_compress` (parameters and assigned variables). -/
def run_compress_locals : List String :=
  ["input_path", "output_path", "output_format", "delete_input", "chdman_path",
   "dryrun", "input_ext", "output_chd_path", "command", "proc", "l", "fn", "p"]

/-- The local names of `run_decompress` (parameters and assigned variables). -/
def run_decompress_locals : List String :=
  ["input_path", "output_path", "delete_input", "chdman_path", "dryrun",
   "output_format", "command_info", "proc", "line", "output_path_ext",
   "output_img_path", "command", "p"]

/-- The exception produced by executing
`raise ValueError("Output file exists: %s" % args.output)` in a scope with the
given local names: a `NameError` when `args` is unbound there. -/
def outputExistsRaise (localNames : List String) (output : PyPath) : PyErr :=
  if "args" ∈ localNames ∨ "args" ∈ moduleGlobals then
    PyErr.valueError ("Output file exists: " ++ output.render)
  else PyErr.nameError "args"

/-! ## parse_args validation (source lines 52-65) -/

/-- The validity checks `parse_args` performs after argparse parsing:
missing tool path, missing input path, pre-existing output file.  Inside
`parse_args` the name `args` is bound, so the messages format fine. -/
def parse_args_check (w : World) (chdman_path : Option String)
    (input : Option PyPath) (output : Option PyPath) : Option PyErr :=
  if chdman_path = none then
    some (PyErr.valueError "Must specify chdman.exe path: --chdman_path")
  else
    match input with
    | some inp =>
      if ¬ (w.isFile inp || w.isDir inp) then
        some (PyErr.valueError ("Input path not found: " ++ inp.render))
      else
        match output with
        | some out =>
          if w.isFile out then
            some (PyErr.valueError ("Output file exists: " ++ out.render))
          else none
        | none => none
    | none =>
      match output with
      | some out =>
        if w.isFile out then
          some (PyErr.valueError ("Output file exists: " ++ out.render))
        else none
      | none => none

/-! ## run_compress (source lines 68-133) -/

/-- Parse one cue-sheet `FILE` line for the referenced companion file name
(source lines 110-113): between the quotes when the line contains a double
quote, otherwise the second whitespace token, stripped. -/
def cueFileRef (l : String) : Except PyErr String :=
  if l.toList.contains dqc then
    match (pySplitChar dqc l.toList).get? 1 with
    | some s => Except.ok (String.mk s)
    | none => Except.error PyErr.indexError
  else
    match (pySplitWs l).get? 1 with
    | some t => Except.ok (pyStrip t)
    | none => Except.error PyErr.indexError

/-- The deletion loop over the cue sheet's lines (source lines 108-114):
for each line starting with `FILE`, unlink the referenced companion next to
the cue file (`missing_ok=True`). -/
def deleteCueRefsGo (input_path : PyPath) : List String → Res
  | [] => ([], none)
  | l :: rest =>
    if pyStartsWith l "FILE" then
      match cueFileRef l with
      | Except.error e => ([], some e)
      | Except.ok fn =>
        let r := deleteCueRefsGo input_path rest
        (Ev.unlink (input_path.parent.child fn) :: r.1, r.2)
    else deleteCueRefsGo input_path rest

/-- Companion-file deletion for a cue input (source lines 108-114). -/
def deleteCueRefs (w : World) (input_path : PyPath) : Res :=
  deleteCueRefsGo input_path (w.readLines input_path)

/-- Sequential processing of a directory batch: Python's `for` loop, where an
exception raised for one entry propagates and stops the loop. -/
def foldBatch (f : PyPath → Res) : List PyPath → Res
  | [] => ([], none)
  | p :: ps =>
    match f p with
    | (evs, some e) => (evs, some e)
    | (evs, none) =>
      let r := foldBatch f ps
      (evs ++ r.1, r.2)

/-- One call level of `run_compress` (source lines 68-133); `rec` stands for
the recursive call used in the directory branch. -/
def run_compress_body (w : World)
    (rec : PyPath → PyPath → String → Bool → String → Bool → Res)
    (input_path output_path : PyPath) (output_format : String)
    (delete_input : Bool) (chdman_path : String) (dryrun : Bool) : Res :=
  let input_ext := extLC input_path
  if w.isFile output_path then
    ([], some (outputExistsRaise run_compress_locals output_path))
  else
    let pre : List Ev :=
      if extLC output_path ≠ ".chd" then
        if dryrun then [Ev.print ("mkdir -p " ++ output_path.render)]
        else [Ev.mkdirp output_path]
      else []
    if w.isFile input_path then
      if input_ext ∉ DISC_IMAGE_EXTS then
        (pre, some (PyErr.valueError ("Invalid input file extension: " ++ input_path.render)))
      else
        let output_chd_path :=
          if extLC output_path = ".chd" then output_path
          else (output_path.child input_path.stem).with_suffix ".chd"
        let output_format :=
          if output_format = "auto" then
            if input_ext = ".cue" ∨ input_ext = ".gdi" then "cd"
            else if 783216000 ≤ w.st_size input_path then "dvd"
            else if input_ext = ".iso" then "dvd"
            else "cd"
          else output_format
        let command := [chdman_path, "create" ++ output_format, "--input",
                        input_path.render, "--output", output_chd_path.render]
        let pre := pre ++ [Ev.print (String.intercalate " " command)]
        if dryrun then (pre, none)
        else
          let pre := pre ++ [Ev.spawn command]
          if delete_input ∧ w.runRC command = 0 then
            if input_ext = ".cue" then
              match deleteCueRefs w input_path with
              | (devs, some e) => (pre ++ devs, some e)
              | (devs, none) =>
                (pre ++ devs ++ [Ev.unlink input_path, Ev.print ""], none)
            else (pre ++ [Ev.unlink input_path, Ev.print ""], none)
          else (pre ++ [Ev.print ""], none)
    else if w.isDir input_path then
      if extLC output_path = ".chd" then
        (pre, some (PyErr.valueError
          ("Input path was a directory, so output path must be a directory as well: "
            ++ output_path.render)))
      else
        let r := foldBatch (fun p =>
          if w.isFile p && decide (extLC p ∈ DISC_IMAGE_EXTS) then
            rec p output_path output_format delete_input chdman_path dryrun
          else ([], none)) (w.rglob input_path)
        (pre ++ r.1, r.2)
    else
      (pre, some (PyErr.valueError ("Input path not found: " ++ input_path.render)))

/-- Recursion cut-off (never reached: the directory branch recurses only on
paths that satisfy `is_file`, and those take the non-recursive file branch). -/
def noRecur6 : PyPath → PyPath → String → Bool → String → Bool → Res :=
  fun _ _ _ _ _ _ => ([], some PyErr.recursionError)

/-- `run_compress` (source lines 68-133): two call levels suffice, since the
directory branch only recurses on regular files. -/
def run_compress (w : World) (input_path output_path : PyPath)
    (output_format : String) (delete_input : Bool) (chdman_path : String)
    (dryrun : Bool) : Res :=
  run_compress_body w
    (fun a b c d e f => run_compress_body w noRecur6 a b c d e f)
    input_path output_path output_format delete_input chdman_path dryrun

/-! ## run_decompress (source lines 136-198) -/

/-- The metadata-tag scan of the captured `info` output (source lines 156-162):
the first line starting with `Metadata:` whose `Tag='...'` token, stripped and
upper-cased, is a key of `TAG_TO_FORMAT` determines the format; extraction or
lookup failures on a line are swallowed by the bare `except` and scanning
continues. -/
def inferFormat (lines : List String) : Option String :=
  lines.findSome? fun line =>
    if pyStartsWith line "Metadata:" then
      match (pySplit ("Tag=" ++ squo) line).get? 1 with
      | none => none
      | some r => TAG_TO_FORMAT.lookup (pyUpper (pyStrip ((pySplit squo r).headD "")))
    else none

/-- One call level of `run_decompress` (source lines 136-198); `rec` stands
for the recursive call used in the directory branch. -/
def run_decompress_body (w : World)
    (rec : PyPath → PyPath → Bool → String → Bool → Res)
    (input_path output_path : PyPath) (delete_input : Bool)
    (chdman_path : String) (dryrun : Bool) : Res :=
  if w.isFile output_path then
    ([], some (outputExistsRaise run_decompress_locals output_path))
  else
    let pre : List Ev :=
      if extLC output_path ∉ DISC_IMAGE_EXTS then
        if dryrun then [Ev.print ("mkdir -p " ++ output_path.render)]
        else [Ev.mkdirp output_path]
      else []
    if w.isFile input_path then
      if extLC input_path ≠ ".chd" then
        (pre, some (PyErr.valueError ("Input file must be a CHD: " ++ input_path.render)))
      else
        let command_info := [chdman_path, "info", "--input", input_path.render]
        let pre := pre ++ [Ev.print (String.intercalate " " command_info),
                           Ev.spawnCapture command_info]
        match inferFormat (w.stdoutOf command_info) with
        | none =>
          (pre, some (PyErr.valueError ("Unable to infer image format: " ++ input_path.render)))
        | some output_format =>
          let output_path_ext := extLC output_path
          let imgRes : Except PyErr PyPath :=
            if output_path_ext ∈ DISC_IMAGE_EXTS then
              if output_format = "cd" ∧ output_path_ext ≠ ".cue" then
                Except.error (PyErr.valueError
                  ("Output file extension must be .cue when decompressing CD CHD files: "
                    ++ input_path.render))
              else Except.ok output_path
            else
              match FORMAT_TO_EXT.lookup output_format with
              | some ext => Except.ok ((output_path.child input_path.stem).with_suffix ext)
              | none => Except.error PyErr.keyError
          match imgRes with
          | Except.error e => (pre, some e)
          | Except.ok output_img_path =>
            let command := [chdman_path, "extract" ++ output_format, "--input",
                            input_path.render, "--output", output_img_path.render]
            let command := command ++
              (if output_format = "cd" then
                ["--outputbin",
                 ((output_img_path.parent.child output_img_path.stem).with_suffix ".bin").render]
               else [])
            let pre := pre ++ [Ev.print (String.intercalate " " command)]
            if dryrun then (pre, none)
            else
              let pre := pre ++ [Ev.spawn command]
              if delete_input ∧ w.runRC command = 0 then
                (pre ++ [Ev.unlink input_path, Ev.print ""], none)
              else (pre ++ [Ev.print ""], none)
    else if w.isDir input_path then
      if extLC output_path ∈ DISC_IMAGE_EXTS then
        (pre, some (PyErr.valueError
          ("Input path was a directory, so output path must be a directory as well: "
            ++ output_path.render)))
      else
        let r := foldBatch (fun p =>
          if w.isFile p && (extLC p == ".chd") then
            rec p output_path delete_input chdman_path dryrun
          else ([], none)) (w.rglob input_path)
        (pre ++ r.1, r.2)
    else
      (pre, some (PyErr.valueError ("Input path not found: " ++ input_path.render)))

/-- Recursion cut-off for `run_decompress` (never reached, as for compress). -/
def noRecur5 : PyPath → PyPath → Bool → String → Bool → Res :=
  fun _ _ _ _ _ => ([], some PyErr.recursionError)

/-- `run_decompress` (source lines 136-198): two call levels suffice, since
the directory branch only recurses on regular files. -/
def run_decompress (w : World) (input_path output_path : PyPath)
    (delete_input : Bool) (chdman_path : String) (dryrun : Bool) : Res :=
  run_decompress_body w
    (fun a b c d e => run_decompress_body w noRecur5 a b c d e)
    input_path output_path delete_input chdman_path dryrun

/-! ## run_info (source lines 201-232) -/

/-- The `chdman info` command built by `run_info` (source lines 206-208). -/
def infoCmd (chdman_path : String) (verbose : Bool) (p : PyPath) : List String :=
  [chdman_path, "info", "--input", p.render] ++ (if verbose then ["--verbose"] else [])

/-- Parse the captured stdout (source line 213): keep the lines containing
`": "`, split each kept line at every colon, and strip every piece. -/
def infoRows (lines : List String) : List (List String) :=
  lines.filterMap fun l =>
    if strContains l ": " then some ((pySplitCharStr (Char.ofNat 58) l).map pyStrip)
    else none

/-- Python's 2-tuple unpacking of each row, as performed by the generator
expressions `(k for k,v in out)` / `(v for k,v in out)` on source lines
215-216: a row that is not exactly two fields raises a `ValueError`. -/
def unpack2 : List (List String) → Except PyErr (List (String × String))
  | [] => Except.ok []
  | row :: rest =>
    match row with
    | [k, v] => (unpack2 rest).map (fun l => (k, v) :: l)
    | row' =>
      if row'.length < 2 then
        Except.error (PyErr.valueError "not enough values to unpack (expected 2)")
      else Except.error (PyErr.valueError "too many values to unpack (expected 2)")

/-- Tab-joined keys of the parsed rows (source line 215). -/
def headerRow (kvs : List (String × String)) : String :=
  String.intercalate "\t" (kvs.map Prod.fst)

/-- Tab-joined values of the parsed rows (source line 216). -/
def valueRow (kvs : List (String × String)) : String :=
  String.intercalate "\t" (kvs.map Prod.snd)

/-- The directory loop of `run_info` (source lines 220-230): process matching
files in order, passing `print_header = (count == 0)` and counting processed
files; an exception propagates and stops the loop. -/
def infoFold (w : World) (f : PyPath → Bool → Res) : List PyPath → Nat → Res
  | [], _ => ([], none)
  | p :: ps, count =>
    if w.isFile p && (extLC p == ".chd") then
      match f p (count == 0) with
      | (evs, some e) => (evs, some e)
      | (evs, none) =>
        let r := infoFold w f ps (count + 1)
        (evs ++ r.1, r.2)
    else infoFold w f ps count

/-- One call level of `run_info` (source lines 201-232); `rec` stands for the
recursive call used in the directory branch. -/
def run_info_body (w : World)
    (rec : PyPath → String → Bool → Bool → Bool → Res)
    (input_path : PyPath) (chdman_path : String) (verbose : Bool)
    (print_header : Bool) (dryrun : Bool) : Res :=
  if w.isFile input_path then
    if extLC input_path ≠ ".chd" then
      ([], some (PyErr.valueError ("Input file must be CHD: " ++ input_path.render)))
    else
      let command := infoCmd chdman_path verbose input_path
      if dryrun then ([Ev.print (String.intercalate " " command)], none)
      else
        let pre := [Ev.spawnCapture command]
        match unpack2 (infoRows (w.stdoutOf command)) with
        | Except.error e => (pre, some e)
        | Except.ok kvs =>
          (pre ++ (if print_header then [Ev.print (headerRow kvs)] else [])
               ++ [Ev.print (valueRow kvs)], none)
  else if w.isDir input_path then
    let r := infoFold w
      (fun p ph => rec p chdman_path verbose ph dryrun) (w.rglob input_path) 0
    (r.1, r.2)
  else
    ([], some (PyErr.valueError ("Input path not found: " ++ input_path.render)))

/-- Recursion cut-off for `run_info` (never reached, as for compress). -/
def noRecurInfo : PyPath → String → Bool → Bool → Bool → Res :=
  fun _ _ _ _ _ => ([], some PyErr.recursionError)

/-- `run_info` (source lines 201-232): two call levels suffice, since the
directory branch only recurses on regular files. -/
def run_info (w : World) (input_path : PyPath) (chdman_path : String)
    (verbose : Bool) (print_header : Bool) (dryrun : Bool) : Res :=
  run_info_body w
    (fun a b c d e => run_info_body w noRecurInfo a b c d e)
    input_path chdman_path verbose print_header dryrun

/-! ## Specification-side readings (used for refinement-style claims) -/

/-- Specification-side reading of the cue FILE-directive parsing: the
companion name is the text between the first two double quotes when the line
contains a double quote, otherwise the second whitespace-separated token. -/
def specFileRef (l : String) : Option String :=
  if l.toList.contains dqc then
    some (String.mk
      (((l.toList.dropWhile (fun x => x != dqc)).drop 1).takeWhile (fun x => x != dqc)))
  else ((pySplitWs l).get? 1).map pyStrip

/-- Specification-side reading of the info-output parsing: split a line at
its FIRST colon and trim both parts. -/
def firstColonPair (l : String) : String × String :=
  (pyStrip (String.mk (l.toList.takeWhile (fun x => x != Char.ofNat 58))),
   pyStrip (String.mk ((l.toList.dropWhile (fun x => x != Char.ofNat 58)).drop 1)))

/-! ## Lemmas about the split primitives -/

theorem pySplitChar_ne_nil (c : Char) : ∀ cs, pySplitChar c cs ≠ [] := by
  intro cs
  induction cs with
  | nil => simp [pySplitChar]
  | cons x xs ih =>
    rw [pySplitChar]
    split
    · simp
    · split <;> simp

theorem pySplitChar_head (c : Char) :
    ∀ cs, (pySplitChar c cs).head? = some (cs.takeWhile (fun x => x != c)) := by
  intro cs
  induction cs with
  | nil => simp [pySplitChar]
  | cons x xs ih =>
    rw [pySplitChar]
    by_cases hx : x == c
    · simp [hx, List.takeWhile_cons, bne]
    · obtain ⟨y, ys, hy⟩ := List.exists_cons_of_ne_nil (pySplitChar_ne_nil c xs)
      rw [hy] at ih
      simp only [List.head?] at ih
      simp [hx, hy, List.takeWhile_cons, bne, Option.some_inj.mp ih]

theorem pySplitChar_get1 (c : Char) :
    ∀ cs, cs.contains c = true →
      (pySplitChar c cs).get? 1 =
        some (((cs.dropWhile (fun x => x != c)).drop 1).takeWhile (fun x => x != c)) := by
  intro cs
  induction cs with
  | nil => simp
  | cons x xs ih =>
    intro hmem
    rw [pySplitChar]
    by_cases hx : x == c
    · have hd : (x :: xs).dropWhile (fun x => x != c) = x :: xs := by
        simp [List.dropWhile_cons, hx, bne]
      rw [hd]
      simp only [List.drop_one, List.tail_cons]
      obtain ⟨y, ys, hy⟩ := List.exists_cons_of_ne_nil (pySplitChar_ne_nil c xs)
      have hh := pySplitChar_head c xs
      rw [hy] at hh ⊢
      simp only [List.head?] at hh
      simp [hx, Option.some_inj.mp hh]
    · have hmem' : xs.contains c = true := by
        simp only [List.contains_cons, Bool.or_eq_true] at hmem
        rcases hmem with h | h
        · exact absurd (by simpa [BEq.comm] using h) hx
        · exact h
      obtain ⟨y, ys, hy⟩ := List.exists_cons_of_ne_nil (pySplitChar_ne_nil c xs)
      have ihx := ih hmem'
      rw [hy] at ihx
      have hd : (x :: xs).dropWhile (fun x => x != c) = xs.dropWhile (fun x => x != c) := by
        simp [List.dropWhile_cons, hx, bne]
      simp only [hx, hy, hd]
      simpa using ihx

theorem pySplitChar_count0 (c : Char) :
    ∀ cs, cs.count c = 0 → pySplitChar c cs = [cs] := by
  intro cs
  induction cs with
  | nil => simp [pySplitChar]
  | cons x xs ih =>
    intro hc
    have hx : (x == c) = false := by
      by_contra hx
      have : x = c := by
        have := Bool.of_not_eq_false hx
        simpa [beq_iff_eq] using this
      simp [this, List.count_cons] at hc
    have hxs : xs.count c = 0 := by
      simp [List.count_cons, hx] at hc
      omega
    rw [pySplitChar]
    simp [hx, ih hxs]

theorem pySplitChar_count1 (c : Char) :
    ∀ cs, cs.count c = 1 →
      pySplitChar c cs =
        [cs.takeWhile (fun x => x != c), (cs.dropWhile (fun x => x != c)).drop 1] := by
  intro cs
  induction cs with
  | nil => simp at *
  | cons x xs ih =>
    intro hc
    by_cases hx : x == c
    · have hxs : xs.count c = 0 := by
        have hxc : x = c := by simpa [beq_iff_eq] using hx
        simp [List.count_cons, hxc] at hc
        omega
      rw [pySplitChar]
      simp [hx, pySplitChar_count0 c xs hxs, List.takeWhile_cons, List.dropWhile_cons, bne]
    · have hxs : xs.count c = 1 := by
        have hx' : (x == c) = false := by simpa using hx
        simp [List.count_cons, hx'] at hc
        omega
      rw [pySplitChar]
      simp [hx, ih hxs, List.takeWhile_cons, List.dropWhile_cons, bne]

/-- The code's `l.split('"')[1]` / `l.split()[1].strip()` extraction agrees
with the specification-side `specFileRef` whenever the latter is defined. -/
theorem cueFileRef_spec (l fn : String) (h : specFileRef l = some fn) :
    cueFileRef l = Except.ok fn := by
  unfold specFileRef at h
  unfold cueFileRef
  by_cases hq : l.toList.contains dqc
  · rw [if_pos hq] at h
    rw [if_pos hq, pySplitChar_get1 dqc l.toList hq]
    simpa using h
  · rw [if_neg hq] at h
    rw [if_neg hq]
    cases ht : (pySplitWs l).get? 1 with
    | none => rw [ht] at h; simp at h
    | some t =>
      rw [ht] at h
      simp only [Option.map, Option.some.injEq] at h
      simp [h]

/-! ## Trace helper lemmas -/

theorem printsOf_append (a b : List Ev) :
    printsOf (a ++ b) = printsOf a ++ printsOf b := by
  simp [printsOf, List.filterMap_append]

theorem spawnCmds_append (a b : List Ev) :
    spawnCmds (a ++ b) = spawnCmds a ++ spawnCmds b := by
  simp [spawnCmds, List.filterMap_append]

theorem spawnCaptureCmds_append (a b : List Ev) :
    spawnCaptureCmds (a ++ b) = spawnCaptureCmds a ++ spawnCaptureCmds b := by
  simp [spawnCaptureCmds, List.filterMap_append]

theorem unlinksOf_append (a b : List Ev) :
    unlinksOf (a ++ b) = unlinksOf a ++ unlinksOf b := by
  simp [unlinksOf, List.filterMap_append]

theorem mkdirsOf_append (a b : List Ev) :
    mkdirsOf (a ++ b) = mkdirsOf a ++ mkdirsOf b := by
  simp [mkdirsOf, List.filterMap_append]

/-! ## Claim C1 -/

/-- Claim C1: for a compress of a regular input file with format `auto`, a
`.cue` or `.gdi` extension resolves to `cd` regardless of file size, a `.iso`
extension resolves to `dvd` unconditionally regardless of size, and any other
extension is rejected with the invalid-extension error before any format
resolution or spawn. -/
theorem c1_auto_format_resolution (w : World) (inp out : PyPath) (chd : String)
    (hin : w.isFile inp = true) (hout : w.isFile out = false)
    (hoch : extLC out ≠ ".chd") :
    ((extLC inp = ".cue" ∨ extLC inp = ".gdi") →
      spawnCmds (run_compress w inp out "auto" false chd false).1 =
        [[chd, "createcd", "--input", inp.render, "--output",
          ((out.child inp.stem).with_suffix ".chd").render]]) ∧
    (extLC inp = ".iso" →
      spawnCmds (run_compress w inp out "auto" false chd false).1 =
        [[chd, "createdvd", "--input", inp.render, "--output",
          ((out.child inp.stem).with_suffix ".chd").render]]) ∧
    (extLC inp ∉ DISC_IMAGE_EXTS →
      run_compress w inp out "auto" false chd false =
        ([Ev.mkdirp out],
         some (PyErr.valueError ("Invalid input file extension: " ++ inp.render)))) := by
  refine ⟨?_, ?_, ?_⟩
  · intro hext
    have hmem : extLC inp ∈ DISC_IMAGE_EXTS := by
      rcases hext with h | h <;> simp [DISC_IMAGE_EXTS, h]
    simp only [run_compress, run_compress_body, hin, hout, Bool.false_eq_true, if_false,
      if_true, hoch, if_pos hoch]
    rw [if_neg (by simp [hmem])]
    rcases hext with h | h <;>
      simp [h, hoch, spawnCmds, List.filterMap]
  · intro hext
    have hmem : extLC inp ∈ DISC_IMAGE_EXTS := by simp [DISC_IMAGE_EXTS, hext]
    simp only [run_compress, run_compress_body, hin, hout, Bool.false_eq_true, if_false,
      if_true, hoch, if_pos hoch]
    rw [if_neg (by simp [hmem])]
    by_cases hs : 783216000 ≤ w.st_size inp <;>
      simp [hext, hs, hoch, spawnCmds, List.filterMap]
  · intro hmem
    simp only [run_compress, run_compress_body, hin, hout, Bool.false_eq_true, if_false,
      if_true, hoch, if_pos hoch]
    rw [if_pos hmem]

/-- Input file `in/movie.iso`, 4,700,000,000 bytes, output directory `out`. -/
def wMovie : World where
  isFile := fun p => p == PyPath.mk ["in"] "movie.iso"
  isDir := fun p => p == PyPath.mk [] "in" || p == PyPath.mk [] "out"
  st_size := fun _ => 4700000000
  readLines := fun _ => []
  rglob := fun _ => []
  runRC := fun _ => 0
  stdoutOf := fun _ => []

/-- Witness for C1: compressing the 4,700,000,000-byte `in/movie.iso` with
format `auto` spawns a `createdvd` invocation. -/
theorem c1_auto_format_resolution_witness :
    spawnCmds (run_compress wMovie (PyPath.mk ["in"] "movie.iso") (PyPath.mk [] "out")
        "auto" false "chdman" false).1 =
      [["chdman", "createdvd", "--input", "in/movie.iso", "--output", "out/movie.chd"]] := by
  have h := (c1_auto_format_resolution wMovie (PyPath.mk ["in"] "movie.iso")
    (PyPath.mk [] "out") "chdman" (by decide) (by decide) (by decide)).2.1 (by decide)
  simpa using h

/-! ## Claim C2 -/

/-- World for the C2 counterexample: input `in/game.iso` is a regular file,
the supplied output `out` is a directory, and the computed output
`out/game.chd` already exists as a regular file. -/
def wC2 : World where
  isFile := fun p => p == PyPath.mk ["in"] "game.iso" || p == PyPath.mk ["out"] "game.chd"
  isDir := fun p => p == PyPath.mk [] "in" || p == PyPath.mk [] "out"
  st_size := fun _ => 4700000000
  readLines := fun _ => []
  rglob := fun _ => []
  runRC := fun _ => 0
  stdoutOf := fun _ => []

/-- Counterexample to C2: the computed output path `out/game.chd` names an
existing regular file, yet the compress operation raises nothing and spawns
the external tool with that very path as target (so the file is overwritten,
not protected). -/
theorem c2_computed_output_counterexample :
    wC2.isFile (((PyPath.mk [] "out").child (PyPath.mk ["in"] "game.iso").stem).with_suffix
        ".chd") = true ∧
    (run_compress wC2 (PyPath.mk ["in"] "game.iso") (PyPath.mk [] "out")
        "auto" false "chdman" false).2 = none ∧
    spawnCmds (run_compress wC2 (PyPath.mk ["in"] "game.iso") (PyPath.mk [] "out")
        "auto" false "chdman" false).1 =
      [["chdman", "createdvd", "--input", "in/game.iso", "--output", "out/game.chd"]] := by
  decide

/-- Claim C2 (amended): only the caller-supplied output path is checked for
existence.  Through the CLI, `parse_args` rejects it with the OutputExists
`ValueError` before anything runs; inside `run_compress`/`run_decompress` the
check fires before any directory creation or spawn (the trace is empty).  A
computed output path `dir/stem.chd` is never checked (see the
counterexample). -/
theorem c2_supplied_output_checked (w : World) (c : String) (inp out : PyPath)
    (hin : w.isFile inp = true) (hout : w.isFile out = true) :
    parse_args_check w (some c) (some inp) (some out) =
      some (PyErr.valueError ("Output file exists: " ++ out.render)) ∧
    (∀ fmt del chd dr, (run_compress w inp out fmt del chd dr).1 = [] ∧
      (run_compress w inp out fmt del chd dr).2.isSome = true) ∧
    (∀ del chd dr, (run_decompress w inp out del chd dr).1 = [] ∧
      (run_decompress w inp out del chd dr).2.isSome = true) := by
  refine ⟨?_, ?_, ?_⟩
  · simp [parse_args_check, hin, hout]
  · intro fmt del chd dr
    simp [run_compress, run_compress_body, hout]
  · intro del chd dr
    simp [run_decompress, run_decompress_body, hout]

/-- Witness for the amended C2 at a concrete world. -/
theorem c2_supplied_output_checked_witness :
    parse_args_check wC2 (some "chdman") (some (PyPath.mk ["in"] "game.iso"))
        (some (PyPath.mk ["out"] "game.chd")) =
      some (PyErr.valueError "Output file exists: out/game.chd") ∧
    (run_compress wC2 (PyPath.mk ["in"] "game.iso") (PyPath.mk ["out"] "game.chd")
        "auto" false "chdman" false).1 = [] := by
  have h := c2_supplied_output_checked wC2 "chdman" (PyPath.mk ["in"] "game.iso")
    (PyPath.mk ["out"] "game.chd") (by decide) (by decide)
  refine ⟨?_, (h.2.1 "auto" false "chdman" false).1⟩
  rw [h.1]
  decide

/-! ## Claim C9 -/

/-- Claim C9: when `run_compress` or `run_decompress` is called directly with
an output path that exists as a regular file, the error branch raises a
`NameError` for the unbound name `args` (the message of the documented
`ValueError` references `main`'s local `args`), not the `ValueError`. -/
theorem c9_nameerror_on_existing_output (w : World) (inp out : PyPath)
    (hout : w.isFile out = true) :
    (∀ fmt del chd dr, run_compress w inp out fmt del chd dr =
      ([], some (PyErr.nameError "args"))) ∧
    (∀ del chd dr, run_decompress w inp out del chd dr =
      ([], some (PyErr.nameError "args"))) := by
  have h1 : ∀ o : PyPath, outputExistsRaise run_compress_locals o = PyErr.nameError "args" := by
    intro o
    unfold outputExistsRaise
    rw [if_neg (by decide)]
  have h2 : ∀ o : PyPath, outputExistsRaise run_decompress_locals o = PyErr.nameError "args" := by
    intro o
    unfold outputExistsRaise
    rw [if_neg (by decide)]
  constructor
  · intro fmt del chd dr
    simp [run_compress, run_compress_body, hout, h1]
  · intro del chd dr
    simp [run_decompress, run_decompress_body, hout, h2]

/-- Witness for C9 at a concrete world: the raised exception is the
`NameError`, not a `ValueError`. -/
theorem c9_nameerror_on_existing_output_witness :
    run_compress wC2 (PyPath.mk ["in"] "game.iso") (PyPath.mk ["out"] "game.chd")
        "auto" false "chdman" false = ([], some (PyErr.nameError "args")) ∧
    run_decompress wC2 (PyPath.mk ["in"] "game.chd") (PyPath.mk ["out"] "game.chd")
        false "chdman" false = ([], some (PyErr.nameError "args")) := by
  have h := c9_nameerror_on_existing_output wC2 (PyPath.mk ["in"] "game.iso")
    (PyPath.mk ["out"] "game.chd") (by decide)
  have h' := c9_nameerror_on_existing_output wC2 (PyPath.mk ["in"] "game.chd")
    (PyPath.mk ["out"] "game.chd") (by decide)
  exact ⟨h.1 "auto" false "chdman" false, h'.2 false "chdman" false⟩

/-! ## Claim C10 -/

/-- Claim C10: in non-dry-run mode, compress and decompress create the output
directory before validating the input file's extension, so an operation that
then fails with the invalid-extension error (compress), or with the
format-unknown error (decompress), has already created the directory: the
trace of the failed run starts with the `mkdir -p`. -/
theorem c10_mkdir_precedes_validation :
    (∀ (w : World) (inp out : PyPath) (fmt : String) (del : Bool) (chd : String),
      w.isFile out = false → extLC out ≠ ".chd" → w.isFile inp = true →
      extLC inp ∉ DISC_IMAGE_EXTS →
      run_compress w inp out fmt del chd false =
        ([Ev.mkdirp out],
         some (PyErr.valueError ("Invalid input file extension: " ++ inp.render)))) ∧
    (∀ (w : World) (inp out : PyPath) (del : Bool) (chd : String),
      w.isFile out = false → extLC out ∉ DISC_IMAGE_EXTS → w.isFile inp = true →
      extLC inp = ".chd" →
      inferFormat (w.stdoutOf [chd, "info", "--input", inp.render]) = none →
      run_decompress w inp out del chd false =
        ([Ev.mkdirp out,
          Ev.print (String.intercalate " " [chd, "info", "--input", inp.render]),
          Ev.spawnCapture [chd, "info", "--input", inp.render]],
         some (PyErr.valueError ("Unable to infer image format: " ++ inp.render)))) := by
  constructor
  · intro w inp out fmt del chd hout hoch hin hbad
    simp [run_compress, run_compress_body, hout, hin, hoch, hbad]
  · intro w inp out del chd hout hoe hin hchd htag
    simp [run_decompress, run_decompress_body, hout, hin, hoe, hchd, htag]

/-- World for the C10 witness: `in/readme.txt` (unrecognized compress input)
and `in/bad.chd` (whose info output carries no recognizable metadata tag). -/
def wC10 : World where
  isFile := fun p => p == PyPath.mk ["in"] "readme.txt" || p == PyPath.mk ["in"] "bad.chd"
  isDir := fun p => p == PyPath.mk [] "in" || p == PyPath.mk [] "out"
  st_size := fun _ => 1000
  readLines := fun _ => []
  rglob := fun _ => []
  runRC := fun _ => 0
  stdoutOf := fun _ => ["Metadata: nothing recognisable here"]

/-- Witness for C10: both failing operations have already created `out`. -/
theorem c10_mkdir_precedes_validation_witness :
    run_compress wC10 (PyPath.mk ["in"] "readme.txt") (PyPath.mk [] "out")
        "auto" false "chdman" false =
      ([Ev.mkdirp (PyPath.mk [] "out")],
       some (PyErr.valueError "Invalid input file extension: in/readme.txt")) ∧
    (run_decompress wC10 (PyPath.mk ["in"] "bad.chd") (PyPath.mk [] "out")
        false "chdman" false).1.head? = some (Ev.mkdirp (PyPath.mk [] "out")) ∧
    (run_decompress wC10 (PyPath.mk ["in"] "bad.chd") (PyPath.mk [] "out")
        false "chdman" false).2 =
      some (PyErr.valueError "Unable to infer image format: in/bad.chd") := by
  have h1 := c10_mkdir_precedes_validation.1 wC10 (PyPath.mk ["in"] "readme.txt")
    (PyPath.mk [] "out") "auto" false "chdman" (by decide) (by decide) (by decide) (by decide)
  have h2 := c10_mkdir_precedes_validation.2 wC10 (PyPath.mk ["in"] "bad.chd")
    (PyPath.mk [] "out") false "chdman" (by decide) (by decide) (by decide) (by decide)
    (by decide)
  refine ⟨?_, ?_, ?_⟩
  · rw [h1]; decide
  · rw [h2]; rfl
  · rw [h2]; decide

/-! ## Claim C4 -/

theorem foldBatch_all (q : Ev → Bool) (f : PyPath → Res) (hf : ∀ p, (f p).1.all q = true) :
    ∀ L : List PyPath, (foldBatch f L).1.all q = true := by
  intro L
  induction L with
  | nil => rfl
  | cons p ps ih =>
    rw [foldBatch]
    rcases hfp : f p with ⟨evs, r⟩
    have hp := hf p
    rw [hfp] at hp
    cases r with
    | some e => simpa using hp
    | none => simp [List.all_append, hp, ih]

theorem infoFold_all (q : Ev → Bool) (w : World) (f : PyPath → Bool → Res)
    (hf : ∀ p b, (f p b).1.all q = true) :
    ∀ (L : List PyPath) (c : Nat), (infoFold w f L c).1.all q = true := by
  intro L
  induction L with
  | nil => intro c; rfl
  | cons p ps ih =>
    intro c
    rw [infoFold]
    by_cases hc : (w.isFile p && (extLC p == ".chd")) = true
    · rw [if_pos hc]
      rcases hfp : f p (c == 0) with ⟨evs, r⟩
      have hp := hf p (c == 0)
      rw [hfp] at hp
      cases r with
      | some e => simpa using hp
      | none => simp [List.all_append, hp, ih]
    · rw [if_neg hc]; exact ih c

theorem run_compress_body_dry (w : World)
    (rec : PyPath → PyPath → String → Bool → String → Bool → Res)
    (hrec : ∀ a b c d e, ((rec a b c d e true).1.all Ev.isPrint) = true)
    (i o : PyPath) (fm : String) (dl : Bool) (ch : String) :
    ((run_compress_body w rec i o fm dl ch true).1.all Ev.isPrint) = true := by
  simp only [run_compress_body]
  by_cases h1 : w.isFile o = true
  · simp [h1]
  · by_cases h2 : w.isFile i = true
    · by_cases h3 : extLC i ∈ DISC_IMAGE_EXTS
      · by_cases h4 : extLC o = ".chd" <;> simp [h1, h2, h3, h4, Ev.isPrint]
      · by_cases h4 : extLC o = ".chd" <;> simp [h1, h2, h3, h4, Ev.isPrint]
    · by_cases h5 : w.isDir i = true
      · by_cases h4 : extLC o = ".chd"
        · simp [h1, h2, h5, h4]
        · simp only [h1, h2, h5, h4, Bool.false_eq_true, if_false, if_true, ite_false,
            ite_true]
          rw [if_pos h4, List.all_append, List.all_cons]
          have hfold := foldBatch_all Ev.isPrint
            (fun p => if (w.isFile p && decide (extLC p ∈ DISC_IMAGE_EXTS)) = true
              then rec p o fm dl ch true else ([], none))
            (fun p => by
              by_cases hc : (w.isFile p && decide (extLC p ∈ DISC_IMAGE_EXTS)) = true
              · simp [hc, hrec]
              · simp [hc]) (w.rglob i)
          rw [hfold]
          rfl
      · by_cases h4 : extLC o = ".chd" <;> simp [h1, h2, h5, h4, Ev.isPrint]

theorem run_info_body_dry (w : World)
    (rec : PyPath → String → Bool → Bool → Bool → Res)
    (hrec : ∀ a b c d, ((rec a b c d true).1.all Ev.isPrint) = true)
    (i : PyPath) (ch : String) (vb ph : Bool) :
    ((run_info_body w rec i ch vb ph true).1.all Ev.isPrint) = true := by
  simp only [run_info_body]
  by_cases h1 : w.isFile i = true
  · by_cases h2 : extLC i = ".chd" <;> simp [h1, h2, Ev.isPrint]
  · by_cases h3 : w.isDir i = true
    · simp only [h1, h3, Bool.false_eq_true, if_false, if_true]
      have hfold := infoFold_all Ev.isPrint w (fun p ph2 => rec p ch vb ph2 true)
        (fun p b => hrec p ch vb b) (w.rglob i) 0
      simpa using hfold
    · simp [h1, h3]

theorem run_decompress_body_dry (w : World)
    (rec : PyPath → PyPath → Bool → String → Bool → Res)
    (hrec : ∀ a b c d, ((rec a b c d true).1.all Ev.isPrintOrCapture) = true)
    (i o : PyPath) (dl : Bool) (ch : String) :
    ((run_decompress_body w rec i o dl ch true).1.all Ev.isPrintOrCapture) = true := by
  simp only [run_decompress_body]
  by_cases h1 : w.isFile o = true
  · simp [h1]
  · by_cases h2 : w.isFile i = true
    · simp only [h1, h2, Bool.false_eq_true, if_false, if_true]
      repeat' split
      all_goals simp [Ev.isPrintOrCapture, List.all_append, List.all_cons]
    · by_cases h5 : w.isDir i = true
      · by_cases h4 : extLC o ∈ DISC_IMAGE_EXTS
        · simp [h1, h2, h5, h4]
        · simp only [h1, h2, h5, h4, Bool.false_eq_true, if_false, if_true, ite_false,
            ite_true]
          have hfold := foldBatch_all Ev.isPrintOrCapture
            (fun p => if (w.isFile p && (extLC p == ".chd")) = true
              then rec p o dl ch true else ([], none))
            (fun p => by
              by_cases hc : (w.isFile p && (extLC p == ".chd")) = true
              · simp [hc, hrec]
              · simp [hc]) (w.rglob i)
          simp only [not_false_eq_true, if_true, List.all_append, hfold]
          rfl
      · by_cases h4 : extLC o ∈ DISC_IMAGE_EXTS <;> simp [h1, h2, h5, h4, Ev.isPrintOrCapture]

/-- Claim C4 (amended): with dry-run enabled, compress and info emit only
print events (no directory creation, no deletion, no process of any kind),
and decompress emits only print events and captured `info` spawns — so no
filesystem mutation and no main extract invocation — but its format-discovery
`info` sub-invocation IS still spawned (see the counterexample). -/
theorem c4_dryrun_no_effects :
    (∀ (w : World) (i o : PyPath) (fm : String) (dl : Bool) (ch : String),
      ((run_compress w i o fm dl ch true).1.all Ev.isPrint) = true) ∧
    (∀ (w : World) (i : PyPath) (ch : String) (vb ph : Bool),
      ((run_info w i ch vb ph true).1.all Ev.isPrint) = true) ∧
    (∀ (w : World) (i o : PyPath) (dl : Bool) (ch : String),
      ((run_decompress w i o dl ch true).1.all Ev.isPrintOrCapture) = true) := by
  refine ⟨?_, ?_, ?_⟩
  · intro w i o fm dl ch
    exact run_compress_body_dry w
      (fun a b c d e f => run_compress_body w noRecur6 a b c d e f)
      (fun a b c d e =>
        run_compress_body_dry w noRecur6 (fun _ _ _ _ _ => rfl) a b c d e)
      i o fm dl ch
  · intro w i ch vb ph
    exact run_info_body_dry w
      (fun a b c d e => run_info_body w noRecurInfo a b c d e)
      (fun a b c d =>
        run_info_body_dry w noRecurInfo (fun _ _ _ _ => rfl) a b c d)
      i ch vb ph
  · intro w i o dl ch
    exact run_decompress_body_dry w
      (fun a b c d e => run_decompress_body w noRecur5 a b c d e)
      (fun a b c d =>
        run_decompress_body_dry w noRecur5 (fun _ _ _ _ => rfl) a b c d)
      i o dl ch

/-- Counterexample to C4: with dry-run enabled, decompress still spawns the
format-discovery `info` sub-invocation (the capture-mode `run` on source line
155 is not guarded by the dry-run flag). -/
theorem c4_dryrun_counterexample :
    spawnCaptureCmds (run_decompress wC10 (PyPath.mk ["in"] "bad.chd")
        (PyPath.mk [] "out") false "chdman" true).1 =
      [["chdman", "info", "--input", "in/bad.chd"]] := by
  decide

/-! ## Claim C3 -/

/-- Claim C3 (amended): decompressing a single `.chd` file whose info output
yields no tag recognized by `TAG_TO_FORMAT` fails with the format-unknown
`ValueError`; in a directory batch this exception propagates and ABORTS the
whole batch: when the failing file is the first match, the run ends with that
error, only the failing file's info probe is ever spawned, and no sibling is
processed. -/
theorem c3_format_unknown_aborts_batch (w : World) (dir out b : PyPath)
    (rest : List PyPath) (del : Bool) (chd : String)
    (hdf : w.isFile dir = false) (hdd : w.isDir dir = true)
    (hof : w.isFile out = false) (hoe : extLC out ∉ DISC_IMAGE_EXTS)
    (hrg : w.rglob dir = b :: rest)
    (hbf : w.isFile b = true) (hbe : extLC b = ".chd")
    (htag : inferFormat (w.stdoutOf [chd, "info", "--input", b.render]) = none) :
    (run_decompress w dir out del chd false).2 =
      some (PyErr.valueError ("Unable to infer image format: " ++ b.render)) ∧
    spawnCaptureCmds (run_decompress w dir out del chd false).1 =
      [[chd, "info", "--input", b.render]] ∧
    spawnCmds (run_decompress w dir out del chd false).1 = [] := by
  have hbody : run_decompress_body w noRecur5 b out del chd false =
      ([Ev.mkdirp out,
        Ev.print (String.intercalate " " [chd, "info", "--input", b.render]),
        Ev.spawnCapture [chd, "info", "--input", b.render]],
       some (PyErr.valueError ("Unable to infer image format: " ++ b.render))) := by
    simp [run_decompress_body, hof, hbf, hbe, hoe, htag]
  have hmain : run_decompress w dir out del chd false =
      ([Ev.mkdirp out, Ev.mkdirp out,
        Ev.print (String.intercalate " " [chd, "info", "--input", b.render]),
        Ev.spawnCapture [chd, "info", "--input", b.render]],
       some (PyErr.valueError ("Unable to infer image format: " ++ b.render))) := by
    rw [run_decompress, run_decompress_body]
    rw [if_neg (by simp [hof]), if_neg (by simp [hdf]), if_pos (by simp [hdd]),
      if_neg (by simp [hoe]), hrg, foldBatch]
    rw [if_pos (by simp [hbf, hbe])]
    rw [hbody]
    simp [hoe]
  rw [hmain]
  refine ⟨rfl, ?_, ?_⟩ <;> rfl

/-- World for C3: directory `lib` holds `bad.chd` (no recognizable tag in its
info output) followed by `good.chd` (recognizable CD tag). -/
def wC3 : World where
  isFile := fun p => p == PyPath.mk ["lib"] "bad.chd" || p == PyPath.mk ["lib"] "good.chd"
  isDir := fun p => p == PyPath.mk [] "lib" || p == PyPath.mk [] "out"
  st_size := fun _ => 1000
  readLines := fun _ => []
  rglob := fun p =>
    if p == PyPath.mk [] "lib" then [PyPath.mk ["lib"] "bad.chd", PyPath.mk ["lib"] "good.chd"]
    else []
  runRC := fun _ => 0
  stdoutOf := fun c =>
    if c == ["chdman", "info", "--input", "lib/bad.chd"] then ["Metadata: nothing"]
    else ["Metadata: qq Tag=" ++ squo ++ "CHT2" ++ squo ++ " more"]

/-- Counterexample to C3 as stated: the batch does NOT continue with the
sibling `good.chd` — the run aborts with the format-unknown error after
probing only `bad.chd` (a single captured spawn, no extraction at all). -/
theorem c3_batch_continues_counterexample :
    (run_decompress wC3 (PyPath.mk [] "lib") (PyPath.mk [] "out")
        false "chdman" false).2 =
      some (PyErr.valueError "Unable to infer image format: lib/bad.chd") ∧
    spawnCaptureCmds (run_decompress wC3 (PyPath.mk [] "lib") (PyPath.mk [] "out")
        false "chdman" false).1 =
      [["chdman", "info", "--input", "lib/bad.chd"]] ∧
    spawnCmds (run_decompress wC3 (PyPath.mk [] "lib") (PyPath.mk [] "out")
        false "chdman" false).1 = [] := by
  decide

/-- Witness for the amended C3 at the concrete world `wC3`. -/
theorem c3_format_unknown_aborts_batch_witness :
    (run_decompress wC3 (PyPath.mk [] "lib") (PyPath.mk [] "out")
        true "chdman" false).2 =
      some (PyErr.valueError ("Unable to infer image format: "
        ++ (PyPath.mk ["lib"] "bad.chd").render)) ∧
    spawnCmds (run_decompress wC3 (PyPath.mk [] "lib") (PyPath.mk [] "out")
        true "chdman" false).1 = [] := by
  have h := c3_format_unknown_aborts_batch wC3 (PyPath.mk [] "lib") (PyPath.mk [] "out")
    (PyPath.mk ["lib"] "bad.chd") [PyPath.mk ["lib"] "good.chd"] true "chdman"
    (by decide) (by decide) (by decide) (by decide) (by decide) (by decide) (by decide)
    (by decide)
  exact ⟨h.1, h.2.2⟩

/-! ## Claim C7 -/

/-- Counterexample to C7: `hd` is NOT a member of `CHDMAN_COMPRESS_FORMATS`,
and a format value outside the enumeration is not rejected at all — here
`--format hd` flows straight through to a spawned `createhd` invocation. -/
theorem c7_format_enumeration_counterexample :
    ("hd" ∈ CHDMAN_COMPRESS_FORMATS → False) ∧
    (run_compress wMovie (PyPath.mk ["in"] "movie.iso") (PyPath.mk [] "out")
        "hd" false "chdman" false).2 = none ∧
    spawnCmds (run_compress wMovie (PyPath.mk ["in"] "movie.iso") (PyPath.mk [] "out")
        "hd" false "chdman" false).1 =
      [["chdman", "createhd", "--input", "in/movie.iso", "--output", "out/movie.chd"]] := by
  decide

/-- Claim C7 (amended): the constant enumeration is `{auto, cd, dvd, ld, raw}`
(`hd` is absent), and it is used only to render the `--format` help text: the
compress operation never validates the format value, so ANY non-`auto` string
is passed through to the external tool as the `create<format>` subcommand
without rejection. -/
theorem c7_formats_not_validated (w : World) (inp out : PyPath) (fmt chd : String)
    (hin : w.isFile inp = true) (hout : w.isFile out = false)
    (hoch : extLC out ≠ ".chd") (hmem : extLC inp ∈ DISC_IMAGE_EXTS)
    (hfmt : fmt ≠ "auto") :
    ("hd" ∉ CHDMAN_COMPRESS_FORMATS) ∧
    (run_compress w inp out fmt false chd false).2 = none ∧
    spawnCmds (run_compress w inp out fmt false chd false).1 =
      [[chd, "create" ++ fmt, "--input", inp.render, "--output",
        ((out.child inp.stem).with_suffix ".chd").render]] := by
  refine ⟨by decide, ?_, ?_⟩ <;>
    simp [run_compress, run_compress_body, hin, hout, hoch, hmem, hfmt,
      spawnCmds, List.filterMap]

/-- Witness for the amended C7: the unrecognized format value `bogus` is
passed through as `createbogus`. -/
theorem c7_formats_not_validated_witness :
    (run_compress wMovie (PyPath.mk ["in"] "movie.iso") (PyPath.mk [] "out")
        "bogus" false "chdman" false).2 = none ∧
    spawnCmds (run_compress wMovie (PyPath.mk ["in"] "movie.iso") (PyPath.mk [] "out")
        "bogus" false "chdman" false).1 =
      [["chdman", "createbogus", "--input", "in/movie.iso", "--output", "out/movie.chd"]] := by
  have h := c7_formats_not_validated wMovie (PyPath.mk ["in"] "movie.iso")
    (PyPath.mk [] "out") "bogus" "chdman" (by decide) (by decide) (by decide) (by decide)
    (by decide)
  refine ⟨h.2.1, ?_⟩
  rw [h.2.2]
  decide

/-! ## Claims C5 and C6 -/

/-- Kept lines parse to their every-colon split; when every kept line has
exactly one colon, the parsed rows are exactly the first-colon pairs of the
kept lines and the 2-tuple unpacking of the print loop succeeds. -/
theorem infoRows_single_colon (lines : List String)
    (h : ∀ l ∈ lines, strContains l ": " = true → l.toList.count (Char.ofNat 58) = 1) :
    unpack2 (infoRows lines) =
      Except.ok ((lines.filter (fun l => strContains l ": ")).map firstColonPair) := by
  induction lines with
  | nil => rfl
  | cons l ls ih =>
    have hls : ∀ x ∈ ls, strContains x ": " = true → x.toList.count (Char.ofNat 58) = 1 :=
      fun x hx => h x (List.mem_cons_of_mem l hx)
    have ihr := ih hls
    by_cases hk : strContains l ": " = true
    · have hc := h l (List.mem_cons_self l ls) hk
      have hsplit := pySplitChar_count1 (Char.ofNat 58) l.toList hc
      simp only [infoRows, List.filterMap_cons, hk, if_true, List.filter_cons] at *
      rw [pySplitCharStr, hsplit]
      simp only [List.map_cons, List.map_nil, unpack2, ihr]
      simp [firstColonPair, hk, Except.map]
    · simp only [infoRows, List.filterMap_cons, hk, if_false, List.filter_cons] at *
      simpa [hk] using ihr

/-- A single-file info run (non-dry-run) whose parsed rows unpack cleanly:
one captured spawn, the header row when requested, then the value row. -/
theorem run_info_body_file_ok (w : World)
    (rec : PyPath → String → Bool → Bool → Bool → Res) (p : PyPath) (chd : String)
    (vb ph : Bool) (hf : w.isFile p = true) (he : extLC p = ".chd")
    (kvs : List (String × String))
    (hkv : unpack2 (infoRows (w.stdoutOf (infoCmd chd vb p))) = Except.ok kvs) :
    run_info_body w rec p chd vb ph false =
      ([Ev.spawnCapture (infoCmd chd vb p)]
        ++ (if ph then [Ev.print (headerRow kvs)] else [])
        ++ [Ev.print (valueRow kvs)], none) := by
  simp [run_info_body, hf, he, hkv]

/-- After the first processed file, the count is positive and every further
record is printed without a header. -/
theorem infoFold_tail (w : World) (chd : String) (vb : Bool)
    (K : PyPath → List (String × String)) :
    ∀ (L : List PyPath) (c : Nat), c ≠ 0 →
    (∀ p ∈ L.filter (fun p => w.isFile p && (extLC p == ".chd")),
      unpack2 (infoRows (w.stdoutOf (infoCmd chd vb p))) = Except.ok (K p)) →
    (infoFold w (fun p ph => run_info_body w noRecurInfo p chd vb ph false) L c).2 = none ∧
    printsOf (infoFold w (fun p ph => run_info_body w noRecurInfo p chd vb ph false) L c).1 =
      (L.filter (fun p => w.isFile p && (extLC p == ".chd"))).map (fun p => valueRow (K p)) := by
  intro L
  induction L with
  | nil => intro c hc hK; exact ⟨rfl, rfl⟩
  | cons p ps ih =>
    intro c hc hK
    by_cases hcond : (w.isFile p && (extLC p == ".chd")) = true
    · have hcond' := hcond
      simp only [Bool.and_eq_true, beq_iff_eq] at hcond'
      have hKp := hK p (by simp [List.filter_cons, hcond])
      have hKtail : ∀ q ∈ ps.filter (fun p => w.isFile p && (extLC p == ".chd")),
          unpack2 (infoRows (w.stdoutOf (infoCmd chd vb q))) = Except.ok (K q) := by
        intro q hq
        refine hK q ?_
        simp only [List.filter_cons, hcond, if_true]
        exact List.mem_cons_of_mem p hq
      have hph : (c == 0) = false := by
        simpa using hc
      have hbody := run_info_body_file_ok w noRecurInfo p chd vb (c == 0)
        hcond'.1 hcond'.2 (K p) hKp
      have ihr := ih (c + 1) (Nat.succ_ne_zero c) hKtail
      rw [infoFold, if_pos hcond, hbody]
      simp only [hph, if_false, List.nil_append]
      constructor
      · exact ihr.1
      · rw [List.filter_cons, if_pos hcond]
        simp only [printsOf_append, ihr.2, List.map_cons]
        simp [printsOf]
    · rw [infoFold, if_neg hcond]
      have hKtail : ∀ q ∈ ps.filter (fun p => w.isFile p && (extLC p == ".chd")),
          unpack2 (infoRows (w.stdoutOf (infoCmd chd vb q))) = Except.ok (K q) := by
        intro q hq
        refine hK q ?_
        simp only [List.filter_cons, hcond]
        simpa using hq
      have ihr := ih c hc hKtail
      rw [List.filter_cons, if_neg hcond]
      exact ihr

/-- The full directory walk starting at count zero: no output at all when no
file matches, otherwise the header of the first match followed by one value
row per match. -/
theorem infoFold_head (w : World) (chd : String) (vb : Bool)
    (K : PyPath → List (String × String)) :
    ∀ L : List PyPath,
    (∀ p ∈ L.filter (fun p => w.isFile p && (extLC p == ".chd")),
      unpack2 (infoRows (w.stdoutOf (infoCmd chd vb p))) = Except.ok (K p)) →
    (infoFold w (fun p ph => run_info_body w noRecurInfo p chd vb ph false) L 0).2 = none ∧
    printsOf (infoFold w (fun p ph => run_info_body w noRecurInfo p chd vb ph false) L 0).1 =
      (match L.filter (fun p => w.isFile p && (extLC p == ".chd")) with
       | [] => []
       | e :: _ => headerRow (K e) ::
           (L.filter (fun p => w.isFile p && (extLC p == ".chd"))).map
             (fun p => valueRow (K p))) := by
  intro L
  induction L with
  | nil => intro hK; exact ⟨rfl, rfl⟩
  | cons p ps ih =>
    intro hK
    by_cases hcond : (w.isFile p && (extLC p == ".chd")) = true
    · have hcond' := hcond
      simp only [Bool.and_eq_true, beq_iff_eq] at hcond'
      have hKp := hK p (by simp [List.filter_cons, hcond])
      have hKtail : ∀ q ∈ ps.filter (fun p => w.isFile p && (extLC p == ".chd")),
          unpack2 (infoRows (w.stdoutOf (infoCmd chd vb q))) = Except.ok (K q) := by
        intro q hq
        refine hK q ?_
        simp only [List.filter_cons, hcond, if_true]
        exact List.mem_cons_of_mem p hq
      have hbody := run_info_body_file_ok w noRecurInfo p chd vb (0 == 0)
        hcond'.1 hcond'.2 (K p) hKp
      have tl := infoFold_tail w chd vb K ps 1 one_ne_zero hKtail
      rw [infoFold, if_pos hcond, hbody]
      constructor
      · exact tl.1
      · rw [List.filter_cons, if_pos hcond]
        simp only [printsOf_append, tl.2, List.map_cons]
        simp [printsOf]
    · have hKtail : ∀ q ∈ ps.filter (fun p => w.isFile p && (extLC p == ".chd")),
          unpack2 (infoRows (w.stdoutOf (infoCmd chd vb q))) = Except.ok (K q) := by
        intro q hq
        refine hK q ?_
        simp only [List.filter_cons, hcond]
        simpa using hq
      have ihr := ih hKtail
      rw [infoFold, if_neg hcond, List.filter_cons, if_neg hcond]
      exact ihr

/-- Claim C6: an info run over a directory tree prints nothing when no `.chd`
file matches, and otherwise prints the tabular header exactly once — before
the first record — followed by exactly one value row per matching file with
no further header. -/
theorem c6_info_header_once (w : World) (dir : PyPath) (chd : String) (vb : Bool)
    (K : PyPath → List (String × String))
    (hdf : w.isFile dir = false) (hdd : w.isDir dir = true)
    (hK : ∀ p ∈ (w.rglob dir).filter (fun p => w.isFile p && (extLC p == ".chd")),
      unpack2 (infoRows (w.stdoutOf (infoCmd chd vb p))) = Except.ok (K p)) :
    (run_info w dir chd vb true false).2 = none ∧
    printsOf (run_info w dir chd vb true false).1 =
      (match (w.rglob dir).filter (fun p => w.isFile p && (extLC p == ".chd")) with
       | [] => []
       | e :: _ => headerRow (K e) ::
           ((w.rglob dir).filter (fun p => w.isFile p && (extLC p == ".chd"))).map
             (fun p => valueRow (K p))) := by
  have hh := infoFold_head w chd vb K (w.rglob dir) hK
  rw [run_info, run_info_body, if_neg (by simp [hdf]), if_pos (by simp [hdd])]
  exact hh

/-- Claim C5 (amended): for a single-file info run, lines without `": "` are
dropped, and each kept line is split at EVERY colon with all parts stripped —
not at the first colon only.  When every kept line has exactly one colon this
coincides with the first-colon reading and the run prints the tab-joined keys
and values of those pairs; a kept line with a second colon instead yields
three fields and the run fails during 2-tuple unpacking (see the
counterexample). -/
theorem c5_info_first_colon_refinement (w : World) (p : PyPath) (chd : String)
    (hf : w.isFile p = true) (he : extLC p = ".chd")
    (h1 : ∀ l ∈ w.stdoutOf (infoCmd chd false p), strContains l ": " = true →
      l.toList.count (Char.ofNat 58) = 1) :
    run_info w p chd false true false =
      ([Ev.spawnCapture (infoCmd chd false p),
        Ev.print (headerRow (((w.stdoutOf (infoCmd chd false p)).filter
          (fun l => strContains l ": ")).map firstColonPair)),
        Ev.print (valueRow (((w.stdoutOf (infoCmd chd false p)).filter
          (fun l => strContains l ": ")).map firstColonPair))], none) := by
  have hrows := infoRows_single_colon (w.stdoutOf (infoCmd chd false p)) h1
  simp [run_info, run_info_body, hf, he, hrows]

/-- World for the C5 counterexample: one `.chd` file whose info output has a
line whose value itself contains a colon. -/
def wC5 : World where
  isFile := fun p => p == PyPath.mk ["in"] "disc.chd"
  isDir := fun _ => false
  st_size := fun _ => 0
  readLines := fun _ => []
  rglob := fun _ => []
  runRC := fun _ => 0
  stdoutOf := fun _ => ["Time: 12:34"]

/-- Counterexample to C5: the line `Time: 12:34` is split at EVERY colon into
THREE fields (not one key and one value), and the info run consequently fails
during unpacking instead of producing a row. -/
theorem c5_first_colon_counterexample :
    infoRows ["Time: 12:34"] = [["Time", "12", "34"]] ∧
    run_info wC5 (PyPath.mk ["in"] "disc.chd") "chdman" false true false =
      ([Ev.spawnCapture ["chdman", "info", "--input", "in/disc.chd"]],
       some (PyErr.valueError "too many values to unpack (expected 2)")) := by
  decide

/-- World for the C5/C6 witnesses: directory `lib` with `a.chd` and `b.chd`,
each with two single-colon info lines. -/
def wInfo : World where
  isFile := fun p => p == PyPath.mk ["lib"] "a.chd" || p == PyPath.mk ["lib"] "b.chd"
  isDir := fun p => p == PyPath.mk [] "lib"
  st_size := fun _ => 0
  readLines := fun _ => []
  rglob := fun p =>
    if p == PyPath.mk [] "lib" then [PyPath.mk ["lib"] "a.chd", PyPath.mk ["lib"] "b.chd"]
    else []
  runRC := fun _ => 0
  stdoutOf := fun c =>
    if c == ["chdman", "info", "--input", "lib/a.chd"] then
      ["Input file: a.chd", "Ratio: 55.2%"]
    else ["Input file: b.chd", "Ratio: 60.0%"]

/-- Witness for the amended C5 at a concrete world. -/
theorem c5_info_first_colon_refinement_witness :
    run_info wInfo (PyPath.mk ["lib"] "a.chd") "chdman" false true false =
      ([Ev.spawnCapture ["chdman", "info", "--input", "lib/a.chd"],
        Ev.print "Input file\tRatio",
        Ev.print "a.chd\t55.2%"], none) := by
  have h := c5_info_first_colon_refinement wInfo (PyPath.mk ["lib"] "a.chd") "chdman"
    (by decide) (by decide) (by decide)
  rw [h]
  decide

/-- Witness for C6 at a concrete world: header once, then two value rows. -/
theorem c6_info_header_once_witness :
    (run_info wInfo (PyPath.mk [] "lib") "chdman" false true false).2 = none ∧
    printsOf (run_info wInfo (PyPath.mk [] "lib") "chdman" false true false).1 =
      ["Input file\tRatio", "a.chd\t55.2%", "b.chd\t60.0%"] := by
  have h := c6_info_header_once wInfo (PyPath.mk [] "lib") "chdman" false
    (fun p => if p == PyPath.mk ["lib"] "a.chd" then
        [("Input file", "a.chd"), ("Ratio", "55.2%")]
      else [("Input file", "b.chd"), ("Ratio", "60.0%")])
    (by decide) (by decide)
    (by
      intro p hp
      have hl : List.filter (fun p => wInfo.isFile p && (extLC p == ".chd"))
          (wInfo.rglob (PyPath.mk [] "lib")) =
          [PyPath.mk ["lib"] "a.chd", PyPath.mk ["lib"] "b.chd"] := by decide
      rw [hl] at hp
      simp only [List.mem_cons, List.not_mem_nil, or_false] at hp
      rcases hp with h | h <;> subst h <;> decide)
  refine ⟨h.1, ?_⟩
  rw [h.2]
  decide

/-! ## Claim C8 -/

theorem unlinksOf_map_unlink (P : List PyPath) : unlinksOf (P.map Ev.unlink) = P := by
  induction P with
  | nil => rfl
  | cons p ps ih => simp [unlinksOf, List.filterMap_cons] at *; exact ih

/-- The cue deletion loop unlinks, in order, the companion referenced by each
`FILE` line (quoted or unquoted form) and nothing else, provided each `FILE`
line does reference a companion. -/
theorem deleteCueRefsGo_spec (inp : PyPath) :
    ∀ L : List String,
    (∀ l ∈ L, pyStartsWith l "FILE" = true → (specFileRef l).isSome = true) →
    deleteCueRefsGo inp L =
      (((L.filter (fun l => pyStartsWith l "FILE")).filterMap
        (fun l => (specFileRef l).map (fun fn => inp.parent.child fn))).map Ev.unlink,
       none) := by
  intro L
  induction L with
  | nil => intro h; rfl
  | cons l ls ih =>
    intro h
    have hls : ∀ x ∈ ls, pyStartsWith x "FILE" = true → (specFileRef x).isSome = true :=
      fun x hx => h x (List.mem_cons_of_mem l hx)
    have ihr := ih hls
    by_cases hs : pyStartsWith l "FILE" = true
    · have hsome := h l (List.mem_cons_self l ls) hs
      obtain ⟨fn, hfn⟩ := Option.isSome_iff_exists.mp hsome
      have hok := cueFileRef_spec l fn hfn
      rw [deleteCueRefsGo, if_pos hs, hok, ihr]
      simp [List.filter_cons, hs, List.filterMap_cons, hfn]
    · rw [deleteCueRefsGo, if_neg hs, ihr]
      simp [List.filter_cons, hs]

/-- Claim C8: for a single-file compress of a `.cue` source with deletion
requested (non-dry-run), files are deleted exactly when the tool's return
code is zero; in that case the deleted paths are, in order, the companion
referenced by each `FILE` line of the cue sheet — taken from between the
double quotes when the line contains one, else as the second whitespace
token — followed by the cue sheet itself; on a non-zero return code nothing
is deleted. -/
theorem c8_cue_deletion (w : World) (inp out : PyPath) (chd : String)
    (hin : w.isFile inp = true) (hout : w.isFile out = false)
    (hoch : extLC out ≠ ".chd") (hext : extLC inp = ".cue")
    (hlines : ∀ l ∈ w.readLines inp, pyStartsWith l "FILE" = true →
      (specFileRef l).isSome = true) :
    (w.runRC [chd, "createcd", "--input", inp.render, "--output",
        ((out.child inp.stem).with_suffix ".chd").render] = 0 →
      unlinksOf (run_compress w inp out "auto" true chd false).1 =
        ((w.readLines inp).filter (fun l => pyStartsWith l "FILE")).filterMap
          (fun l => (specFileRef l).map (fun fn => inp.parent.child fn)) ++ [inp]) ∧
    (w.runRC [chd, "createcd", "--input", inp.render, "--output",
        ((out.child inp.stem).with_suffix ".chd").render] ≠ 0 →
      unlinksOf (run_compress w inp out "auto" true chd false).1 = []) := by
  have hgo := deleteCueRefsGo_spec inp (w.readLines inp) hlines
  constructor
  · intro hrc
    simp [run_compress, run_compress_body, hout, hin, hext, hoch, hrc, deleteCueRefs,
      hgo, DISC_IMAGE_EXTS, unlinksOf, List.filterMap_append, List.filterMap_cons,
      List.filterMap_map, Function.comp]
    exact List.filterMap_some _
  · intro hrc
    simp [run_compress, run_compress_body, hout, hin, hext, hoch, hrc, deleteCueRefs,
      hgo, DISC_IMAGE_EXTS, unlinksOf, List.filterMap_append, List.filterMap_cons]

/-- World for the C8 witness: `in/game.cue` references `track01.bin` through
a quoted `FILE` directive, and the tool succeeds. -/
def wCue : World where
  isFile := fun p => p == PyPath.mk ["in"] "game.cue" || p == PyPath.mk ["in"] "track01.bin"
  isDir := fun p => p == PyPath.mk [] "in" || p == PyPath.mk [] "out"
  st_size := fun _ => 700000000
  readLines := fun _ => ["FILE " ++ dquo ++ "track01.bin" ++ dquo ++ " BINARY",
                         "  TRACK 01 MODE1/2352"]
  rglob := fun _ => []
  runRC := fun _ => 0
  stdoutOf := fun _ => []

/-- Witness for C8: on success the referenced companion is deleted first and
the cue sheet itself last. -/
theorem c8_cue_deletion_witness :
    unlinksOf (run_compress wCue (PyPath.mk ["in"] "game.cue") (PyPath.mk [] "out")
        "auto" true "chdman" false).1 =
      [PyPath.mk ["in"] "track01.bin", PyPath.mk ["in"] "game.cue"] := by
  have h := c8_cue_deletion wCue (PyPath.mk ["in"] "game.cue") (PyPath.mk [] "out")
    "chdman" (by decide) (by decide) (by decide) (by decide) (by decide)
  have h0 := h.1 (by decide)
  rw [h0]
  decide
